import Mathlib

/-!
Verification of the star-taker-tarot repository's core numeric routines.

The repository's four Python scripts share a small set of pure numeric
functions, embedded here over exact rationals (for the degree/minute
arithmetic, which Python performs on floats but whose specification is about
real arithmetic) and over the reals (for the trigonometric hour-circle
projection):

  * `lon_to_zodiac` (compute-manzil.py, compute-xiu.py,
    compute-rashi-nakshatra.py): reduce an ecliptic longitude mod 360, split
    it into a zodiac-sign index, whole degrees and rounded minutes, and
    render a label `DD°MM' SignName`.
  * `precess_lon_to_zodiac` (precess-stars.py): the same routine except that
    it does not reduce its input mod 360 first.
  * `ayanamsa` (compute-manzil.py): fixed epoch value plus linear drift.
  * the Lahiri ayanamsa derivation (compute-rashi-nakshatra.py):
    Spica's tropical longitude minus its 180° sidereal reference.
  * the segment-boundary loops (compute-manzil.py,
    compute-rashi-nakshatra.py): `(i·size + ayanamsa) mod 360`.
  * `hour_circle_ecliptic_longitude` and the IAU mean-obliquity polynomial
    (compute-xiu.py).

Python's `%` on floats with a positive modulus is `x - m·⌊x/m⌋`, and
Python's `int()` truncates toward zero; both are modelled exactly below.
-/

/-- Python `x % m` for a positive real modulus: `x - m * floor (x / m)`. -/
def pymod (x m : ℚ) : ℚ := x - m * ⌊x / m⌋

/-- Python `int()` on a rational: truncation toward zero. -/
def pytrunc (x : ℚ) : ℤ := if x < 0 then ⌈x⌉ else ⌊x⌋

/-- The 12 zodiac sign names (`SIGNS` in every script). -/
def SIGNS : List String :=
  ["Aries", "Taurus", "Gemini", "Cancer", "Leo", "Virgo",
   "Libra", "Scorpio", "Sagittarius", "Capricorn", "Aquarius", "Pisces"]

/-- Python list indexing `xs[i]`: nonnegative indices from the front,
negative indices from the back, `none` (an `IndexError`) out of range. -/
def python_index (xs : List String) (i : ℤ) : Option String :=
  if 0 ≤ i then xs.get? i.toNat
  else if -(xs.length : ℤ) ≤ i then xs.get? ((xs.length : ℤ) + i).toNat
  else none

/-- The sign/degrees/minutes triple underlying a zodiac label. -/
structure ZodiacDMS where
  sign_idx : ℤ
  degrees : ℤ
  minutes : ℤ
deriving DecidableEq, Repr

/-- Source line `sign_idx = int(lon_deg // 30)` — Python floor division, so the `int`
is the identity. -/
def sign_idx (l : ℚ) : ℤ := ⌊l / 30⌋

/-- Source line `remainder = lon_deg - sign_idx * 30`. -/
def sign_remainder (l : ℚ) : ℚ := l - sign_idx l * 30

/-- Source line `degrees = int(remainder)`. -/
def whole_degrees (l : ℚ) : ℤ := pytrunc (sign_remainder l)

/-- Source line `minutes = int((remainder - degrees) * 60 + 0.5)`. -/
def raw_minutes (l : ℚ) : ℤ :=
  pytrunc ((sign_remainder l - whole_degrees l) * 60 + 1/2)

/-- The shared body of `lon_to_zodiac` after the (optional) mod-360
reduction, including the minutes-to-degrees carry. -/
def zodiac_core (l : ℚ) : ZodiacDMS :=
  if raw_minutes l = 60 then ⟨sign_idx l, whole_degrees l + 1, 0⟩
  else ⟨sign_idx l, whole_degrees l, raw_minutes l⟩

/-- The spec's `normalize`: `lon_to_zodiac`'s numeric part, with the
`lon_deg % 360` reduction of compute-manzil.py / compute-xiu.py /
compute-rashi-nakshatra.py. -/
def normalize_lon (lon : ℚ) : ZodiacDMS := zodiac_core (pymod lon 360)

/-- Python zero-padded two-digit integer formatting, for the small
nonnegative degree/minute values the scripts print. -/
def pad2 (n : ℤ) : String :=
  if 0 ≤ n ∧ n < 10 then "0" ++ toString n else toString n

/-- Render a `ZodiacDMS` the way the return f-string does: zero-padded
degrees, a degree sign, zero-padded minutes, a minutes mark, a space and the
sign name looked up in `SIGNS`; `none` models the `IndexError` when the sign
index is out of range. -/
def zodiac_render (z : ZodiacDMS) : Option String :=
  (python_index SIGNS z.sign_idx).map
    (fun s => pad2 z.degrees ++ "°" ++ pad2 z.minutes ++ "\x27 " ++ s)

/-- The function `lon_to_zodiac` of compute-manzil.py (also compute-xiu.py and
compute-rashi-nakshatra.py): reduces mod 360 first. -/
def lon_to_zodiac (lon : ℚ) : Option String := zodiac_render (normalize_lon lon)

/-- The function `lon_to_zodiac` of precess-stars.py: identical body but with no
`lon_deg % 360` reduction. -/
def precess_lon_to_zodiac (lon : ℚ) : Option String :=
  zodiac_render (zodiac_core lon)

/-- Reconstruct a longitude (in degrees) from a zodiac triple:
`sign_index·30 + degrees + minutes/60`. -/
def reconstruct (z : ZodiacDMS) : ℚ :=
  (z.sign_idx : ℚ) * 30 + (z.degrees : ℚ) + (z.minutes : ℚ) / 60

/-- Source line `AYANAMSA_2019 = 25.0` (compute-manzil.py). -/
def AYANAMSA_2019 : ℚ := 25

/-- Source line `PRECESSION_RATE = 50.29 / 3600` degrees per year (compute-manzil.py). -/
def PRECESSION_RATE : ℚ := 50.29 / 3600

/-- Source line `ayanamsa = AYANAMSA_2019 + years_from_2019 * PRECESSION_RATE`
(compute-manzil.py main loop). -/
def ayanamsa (year : ℚ) : ℚ := AYANAMSA_2019 + (year - 2019) * PRECESSION_RATE

/-- Source line `MANSION_SIZE = 360.0 / 28` (compute-manzil.py). -/
def MANSION_SIZE : ℚ := 360 / 28

/-- Source line `RASHI_SIZE = 30.0` (compute-rashi-nakshatra.py). -/
def RASHI_SIZE : ℚ := 30

/-- Source line `NAKSHATRA_SIZE = 360.0 / 27` (compute-rashi-nakshatra.py). -/
def NAKSHATRA_SIZE : ℚ := 360 / 27

/-- Source line `trop_start = (i * MANSION_SIZE + ayanamsa) % 360` (compute-manzil.py
boundary loop). -/
def manzil_trop_start (a : ℚ) (i : ℕ) : ℚ := pymod (i * MANSION_SIZE + a) 360

/-- Source line `trop_end = ((i + 1) * MANSION_SIZE + ayanamsa) % 360`
(compute-manzil.py boundary loop). -/
def manzil_trop_end (a : ℚ) (i : ℕ) : ℚ :=
  pymod ((i + 1 : ℕ) * MANSION_SIZE + a) 360

/-- Source line `trop_start = (i * RASHI_SIZE + ayanamsa) % 360`
(compute-rashi-nakshatra.py RĀŚI loop). -/
def rashi_trop_start (a : ℚ) (i : ℕ) : ℚ := pymod (i * RASHI_SIZE + a) 360

/-- Source line `trop_end = ((i + 1) * RASHI_SIZE + ayanamsa) % 360`
(compute-rashi-nakshatra.py RĀŚI loop). -/
def rashi_trop_end (a : ℚ) (i : ℕ) : ℚ :=
  pymod ((i + 1 : ℕ) * RASHI_SIZE + a) 360

/-- Source line `trop_start = (i * NAKSHATRA_SIZE + ayanamsa) % 360`
(compute-rashi-nakshatra.py NAKṢATRA loop). -/
def nakshatra_trop_start (a : ℚ) (i : ℕ) : ℚ :=
  pymod (i * NAKSHATRA_SIZE + a) 360

/-- Source line `trop_end = ((i + 1) * NAKSHATRA_SIZE + ayanamsa) % 360`
(compute-rashi-nakshatra.py NAKṢATRA loop). -/
def nakshatra_trop_end (a : ℚ) (i : ℕ) : ℚ :=
  pymod ((i + 1 : ℕ) * NAKSHATRA_SIZE + a) 360

/-- Spica's canonical sidereal longitude for the Lahiri standard: the
`180.0` in `ayanamsa = spica_tropical - 180.0` (compute-rashi-nakshatra.py). -/
def SPICA_SIDEREAL : ℚ := 180

/-- Source line `ayanamsa = spica_tropical - 180.0` (compute-rashi-nakshatra.py):
the star-anchored Lahiri ayanamsa derivation. -/
def ayanamsa_from_spica (spica_tropical : ℚ) : ℚ :=
  spica_tropical - SPICA_SIDEREAL

/-- Source line `eps_arcsec = 84381.448 - 46.8150*T - 0.00059*T**2 + 0.001813*T**3`
(compute-xiu.py), `T` in Julian centuries since J2000.0. -/
def eps_arcsec (T : ℚ) : ℚ :=
  84381.448 - 46.8150 * T - 0.00059 * T ^ 2 + 0.001813 * T ^ 3

/-- Source line `obliquity_deg = eps_arcsec / 3600.0` (compute-xiu.py). -/
def obliquity_deg (T : ℚ) : ℚ := eps_arcsec T / 3600

/-- Degrees/minutes/seconds to arcseconds: `d·3600 + m·60 + s`, used to
state the spec's `23°26'21.448"` leading coefficient. -/
def dms_arcsec (d m s : ℚ) : ℚ := d * 3600 + m * 60 + s

/-- The obliquity polynomial as the spec words it: the IAU polynomial with
leading coefficient written `23°26'21.448"`, all divided by 3600 to yield
degrees. Stated from the spec for comparison with `obliquity_deg`. -/
def obliquity_spec (T : ℚ) : ℚ :=
  (dms_arcsec 23 26 21.448 - 46.8150 * T - 0.00059 * T ^ 2
    + 0.001813 * T ^ 3) / 3600

/-- Python `math.atan2(y, x)`: the argument of the complex number `x + y·i`,
in `(-π, π]`. -/
noncomputable def atan2 (y x : ℝ) : ℝ := Complex.arg (x + y * Complex.I)

/-- The hour-circle projector of compute-xiu.py:
`lam = atan2(sin(ra) * cos(eps), cos(ra))`, converted to degrees with
`math.degrees`, then shifted by 360 if negative. -/
noncomputable def hour_circle_ecliptic_longitude (ra_rad obliquity_rad : ℝ) : ℝ :=
  let lam := atan2 (Real.sin ra_rad * Real.cos obliquity_rad) (Real.cos ra_rad)
  let lam_deg := lam * (180 / Real.pi)
  if lam_deg < 0 then lam_deg + 360 else lam_deg

-- ## Basic facts about `pymod` and `pytrunc`

lemma pytrunc_of_nonneg {x : ℚ} (h : 0 ≤ x) : pytrunc x = ⌊x⌋ := by
  simp [pytrunc, not_lt.2 h]

lemma pymod_nonneg (x : ℚ) {m : ℚ} (hm : 0 < m) : 0 ≤ pymod x m := by
  have h := Int.floor_le (x / m)
  have : (⌊x / m⌋ : ℚ) * m ≤ x / m * m := by
    exact mul_le_mul_of_nonneg_right h (le_of_lt hm)
  rw [div_mul_cancel₀ x (ne_of_gt hm)] at this
  simp only [pymod]
  linarith

lemma pymod_lt (x : ℚ) {m : ℚ} (hm : 0 < m) : pymod x m < m := by
  have h := Int.lt_floor_add_one (x / m)
  have : x / m * m < ((⌊x / m⌋ : ℚ) + 1) * m := by
    exact mul_lt_mul_of_pos_right h hm
  rw [div_mul_cancel₀ x (ne_of_gt hm)] at this
  simp only [pymod]
  nlinarith

lemma pymod_eq_self {x m : ℚ} (hm : 0 < m) (h0 : 0 ≤ x) (h1 : x < m) :
    pymod x m = x := by
  have hfloor : ⌊x / m⌋ = 0 := by
    rw [Int.floor_eq_zero_iff]
    constructor
    · exact div_nonneg h0 (le_of_lt hm)
    · rw [div_lt_one hm]; exact h1
  simp [pymod, hfloor]

lemma pymod_add_int_mul (x : ℚ) (m : ℚ) (k : ℤ) (hm : m ≠ 0) :
    pymod (x + m * k) m = pymod x m := by
  have harg : (x + m * k) / m = x / m + k := by
    rw [add_div, mul_comm m (k : ℚ), mul_div_assoc, div_self hm, mul_one]
  simp only [pymod, harg, Int.floor_add_int]
  push_cast
  ring

lemma sign_remainder_nonneg (l : ℚ) : 0 ≤ sign_remainder l := by
  have h := Int.floor_le (l / 30)
  have h30 : (⌊l / 30⌋ : ℚ) * 30 ≤ l / 30 * 30 :=
    mul_le_mul_of_nonneg_right h (by norm_num)
  rw [div_mul_cancel₀ l (by norm_num : (30 : ℚ) ≠ 0)] at h30
  simp only [sign_remainder, sign_idx]
  linarith

lemma sign_remainder_lt (l : ℚ) : sign_remainder l < 30 := by
  have h := Int.lt_floor_add_one (l / 30)
  have h30 : l / 30 * 30 < ((⌊l / 30⌋ : ℚ) + 1) * 30 :=
    mul_lt_mul_of_pos_right h (by norm_num)
  rw [div_mul_cancel₀ l (by norm_num : (30 : ℚ) ≠ 0)] at h30
  simp only [sign_remainder, sign_idx]
  linarith

lemma whole_degrees_eq_floor (l : ℚ) :
    whole_degrees l = ⌊sign_remainder l⌋ :=
  pytrunc_of_nonneg (sign_remainder_nonneg l)

lemma sign_frac_nonneg (l : ℚ) :
    0 ≤ sign_remainder l - (whole_degrees l : ℚ) := by
  rw [whole_degrees_eq_floor]
  exact sub_nonneg.2 (Int.floor_le _)

lemma sign_frac_lt_one (l : ℚ) :
    sign_remainder l - (whole_degrees l : ℚ) < 1 := by
  rw [whole_degrees_eq_floor]
  have := Int.lt_floor_add_one (sign_remainder l)
  linarith

lemma raw_minutes_eq_floor (l : ℚ) :
    raw_minutes l = ⌊(sign_remainder l - (whole_degrees l : ℚ)) * 60 + 1/2⌋ := by
  apply pytrunc_of_nonneg
  have := sign_frac_nonneg l
  nlinarith

lemma pymod_360_bounds (x : ℚ) : 0 ≤ pymod x 360 ∧ pymod x 360 < 360 :=
  ⟨pymod_nonneg x (by norm_num), pymod_lt x (by norm_num)⟩

lemma sign_idx_bounds {l : ℚ} (h0 : 0 ≤ l) (h1 : l < 360) :
    0 ≤ sign_idx l ∧ sign_idx l < 12 := by
  constructor
  · exact Int.floor_nonneg.2 (by positivity)
  · apply Int.floor_lt.2
    push_cast
    linarith

lemma python_index_SIGNS_isSome {i : ℤ} (h0 : 0 ≤ i) (h1 : i < 12) :
    (python_index SIGNS i).isSome = true := by
  interval_cases i <;> decide

/-- C5: the longitude normalizer of compute-manzil.py (and its identical
copies in compute-xiu.py and compute-rashi-nakshatra.py) is periodic with
period 360: shifting the input by any integer multiple of 360 leaves both
the sign/degree/minute triple and the rendered label unchanged. -/
theorem lon_to_zodiac_periodic :
    ∀ (lon : ℚ) (k : ℤ),
      lon_to_zodiac (lon + 360 * k) = lon_to_zodiac lon ∧
      normalize_lon (lon + 360 * k) = normalize_lon lon := by
  intro lon k
  have h : pymod (lon + 360 * k) 360 = pymod lon 360 :=
    pymod_add_int_mul lon 360 k (by norm_num)
  constructor
  · simp only [lon_to_zodiac, normalize_lon, h]
  · simp only [normalize_lon, h]

/-- C7: the star-anchored (Lahiri) ayanamsa derivation round-trips: if
Spica's tropical longitude is its canonical sidereal reference 180° plus an
ayanamsa A, the derived ayanamsa is exactly A (so in particular A mod 360). -/
theorem ayanamsa_from_spica_round_trip :
    ∀ A : ℚ,
      ayanamsa_from_spica (SPICA_SIDEREAL + A) = A ∧
      ∃ k : ℤ, ayanamsa_from_spica (SPICA_SIDEREAL + A) - A = 360 * k := by
  intro A
  constructor
  · simp [ayanamsa_from_spica]
  · exact ⟨0, by simp [ayanamsa_from_spica]⟩

/-- C8: the fixed-epoch-with-drift ayanamsa of compute-manzil.py is exactly
linear in the year: the difference between two years is the elapsed years
times the precession rate. -/
theorem ayanamsa_linear :
    ∀ y1 y2 : ℚ, ayanamsa y2 - ayanamsa y1 = (y2 - y1) * PRECESSION_RATE := by
  intro y1 y2
  simp only [ayanamsa]
  ring

/-- C9: the mean obliquity computed by compute-xiu.py equals the IAU
polynomial with leading coefficient 23°26'21.448" expressed in degrees:
84381.448 arcseconds is exactly 23·3600 + 26·60 + 21.448, and the program's
value is that polynomial divided by 3600. -/
theorem obliquity_matches_iau :
    dms_arcsec 23 26 21.448 = 84381.448 ∧
    ∀ T : ℚ, obliquity_deg T = obliquity_spec T := by
  constructor
  · norm_num [dms_arcsec]
  · intro T
    simp only [obliquity_deg, eps_arcsec, obliquity_spec, dms_arcsec]
    norm_num

/-- C1 (code behavior at the failing input): at longitude 29.995° the
minutes term rounds to 60 and the carry pushes degrees to 30, so the
normalizer emits sign Aries with degrees = 30 — outside the claimed [0,30)
range — and the label "30°00' Aries" instead of carrying into the sign. -/
theorem normalize_degree_rollover :
    normalize_lon (5999/200) = ⟨0, 30, 0⟩ ∧
    (normalize_lon (5999/200)).degrees = 30 ∧
    lon_to_zodiac (5999/200) = some "30°00\x27 Aries" := by
  have h : normalize_lon (5999/200) = ⟨0, 30, 0⟩ := by
    norm_num [normalize_lon, zodiac_core, raw_minutes, whole_degrees,
      sign_remainder, sign_idx, pytrunc, pymod]
  refine ⟨h, by rw [h], ?_⟩
  rw [lon_to_zodiac, h]
  decide

/-- C6: totality of the sign lookup. The mod-360 variant of
compute-manzil.py / compute-xiu.py / compute-rashi-nakshatra.py always
produces a label (the sign index stays inside the 12-element list), but the
precess-stars.py variant, which skips the mod-360 reduction, hits an
IndexError (modelled as `none`) already at longitude 360. -/
theorem lon_to_zodiac_total_but_precess_variant_fails :
    (∀ lon : ℚ, (lon_to_zodiac lon).isSome = true) ∧
    precess_lon_to_zodiac 360 = none := by
  constructor
  · intro lon
    obtain ⟨hp0, hp1⟩ := pymod_360_bounds lon
    obtain ⟨hs0, hs1⟩ := sign_idx_bounds hp0 hp1
    have hidx := python_index_SIGNS_isSome hs0 hs1
    simp only [lon_to_zodiac, normalize_lon, zodiac_render, zodiac_core]
    by_cases hm : raw_minutes (pymod lon 360) = 60 <;>
      simp [hm, Option.isSome_map, hidx]
  · norm_num [precess_lon_to_zodiac, zodiac_core, raw_minutes, whole_degrees,
      sign_remainder, sign_idx, pytrunc, zodiac_render, python_index, SIGNS]

lemma lon_to_zodiac_25 : lon_to_zodiac 25 = some "25°00\x27 Aries" := by
  have h : normalize_lon 25 = ⟨0, 25, 0⟩ := by
    norm_num [normalize_lon, zodiac_core, raw_minutes, whole_degrees,
      sign_remainder, sign_idx, pytrunc, pymod]
  rw [lon_to_zodiac, h]
  decide

lemma lon_to_zodiac_taurus : lon_to_zodiac (265/7) = some "07°51\x27 Taurus" := by
  have h : normalize_lon (265/7) = ⟨1, 7, 51⟩ := by
    norm_num [normalize_lon, zodiac_core, raw_minutes, whole_degrees,
      sign_remainder, sign_idx, pytrunc, pymod]
  rw [lon_to_zodiac, h]
  decide

/-- C2: with ayanamsa 25.0, mansion segment 0 of compute-manzil.py has
tropical start (0·MANSION_SIZE + 25) mod 360 = 25°, labelled
"25°00' Aries", and tropical end (1·MANSION_SIZE + 25) mod 360 = 265/7°
(≈ 37.857143°), labelled "07°51' Taurus". -/
theorem manzil_segment0_boundaries :
    manzil_trop_start 25 0 = 25 ∧
    lon_to_zodiac (manzil_trop_start 25 0) = some "25°00\x27 Aries" ∧
    manzil_trop_end 25 0 = 265/7 ∧
    lon_to_zodiac (manzil_trop_end 25 0) = some "07°51\x27 Taurus" := by
  have hs : manzil_trop_start 25 0 = 25 := by
    norm_num [manzil_trop_start, MANSION_SIZE, pymod]
  have he : manzil_trop_end 25 0 = 265/7 := by
    norm_num [manzil_trop_end, MANSION_SIZE, pymod]
  exact ⟨hs, by rw [hs]; exact lon_to_zodiac_25,
         he, by rw [he]; exact lon_to_zodiac_taurus⟩

lemma segment_wrap (size : ℚ) (N : ℕ) (hN : (N : ℚ) * size = 360)
    (a : ℚ) (i : ℕ) :
    pymod (((i + 1 : ℕ) : ℚ) * size + a) 360 =
      pymod ((((i + 1) % N : ℕ) : ℚ) * size + a) 360 := by
  set q := (i + 1) / N with hq_def
  set r := (i + 1) % N with hr_def
  have hdm : N * q + r = i + 1 := Nat.div_add_mod _ _
  have hcast : ((i + 1 : ℕ) : ℚ) = (N : ℚ) * (q : ℚ) + (r : ℚ) := by
    exact_mod_cast congrArg (Nat.cast : ℕ → ℚ) hdm.symm
  have hsplit : ((i + 1 : ℕ) : ℚ) * size + a =
      ((r : ℕ) : ℚ) * size + a + 360 * ((q : ℕ) : ℤ) := by
    rw [hcast]
    push_cast
    linear_combination (q : ℚ) * hN
  rw [hsplit, pymod_add_int_mul _ 360 _ (by norm_num)]

/-- C10: every equal-division boundary generator is gapless and cyclic:
for the 28 manāzil, 12 rāśi and 27 nakṣatra loops and any ayanamsa, the
tropical end of segment i equals the tropical start of segment (i+1) mod N;
in particular the last segment's end equals segment 0's start. -/
theorem segment_boundaries_gapless :
    (∀ (a : ℚ) (i : ℕ),
      manzil_trop_end a i = manzil_trop_start a ((i + 1) % 28)) ∧
    (∀ (a : ℚ) (i : ℕ),
      rashi_trop_end a i = rashi_trop_start a ((i + 1) % 12)) ∧
    (∀ (a : ℚ) (i : ℕ),
      nakshatra_trop_end a i = nakshatra_trop_start a ((i + 1) % 27)) ∧
    (∀ a : ℚ, manzil_trop_end a 27 = manzil_trop_start a 0) ∧
    (∀ a : ℚ, rashi_trop_end a 11 = rashi_trop_start a 0) ∧
    (∀ a : ℚ, nakshatra_trop_end a 26 = nakshatra_trop_start a 0) := by
  have hm : ∀ (a : ℚ) (i : ℕ),
      manzil_trop_end a i = manzil_trop_start a ((i + 1) % 28) := by
    intro a i
    simpa [manzil_trop_end, manzil_trop_start] using
      segment_wrap MANSION_SIZE 28 (by norm_num [MANSION_SIZE]) a i
  have hr : ∀ (a : ℚ) (i : ℕ),
      rashi_trop_end a i = rashi_trop_start a ((i + 1) % 12) := by
    intro a i
    simpa [rashi_trop_end, rashi_trop_start] using
      segment_wrap RASHI_SIZE 12 (by norm_num [RASHI_SIZE]) a i
  have hn : ∀ (a : ℚ) (i : ℕ),
      nakshatra_trop_end a i = nakshatra_trop_start a ((i + 1) % 27) := by
    intro a i
    simpa [nakshatra_trop_end, nakshatra_trop_start] using
      segment_wrap NAKSHATRA_SIZE 27 (by norm_num [NAKSHATRA_SIZE]) a i
  exact ⟨hm, hr, hn,
    fun a => hm a 27, fun a => hr a 11, fun a => hn a 26⟩

/-- C4: for every longitude in [0,360), reconstructing
sign_index·30 + degrees + minutes/60 from the normalizer's output recovers
the input to within 1/120° (half-minute rounding tolerance); this holds
through both the no-carry and the minutes-to-degrees carry branch. -/
theorem reconstruct_within_half_minute (lon : ℚ)
    (h0 : 0 ≤ lon) (h1 : lon < 360) :
    |reconstruct (normalize_lon lon) - lon| ≤ 1/120 := by
  have hpm : pymod lon 360 = lon := pymod_eq_self (by norm_num) h0 h1
  rw [normalize_lon, hpm]
  have hlon : lon = (sign_idx lon : ℚ) * 30 + sign_remainder lon := by
    simp only [sign_remainder]
    ring
  have hd := whole_degrees_eq_floor lon
  have hf0 := sign_frac_nonneg lon
  have hf1 := sign_frac_lt_one lon
  have hmfl := raw_minutes_eq_floor lon
  set f := sign_remainder lon - (whole_degrees lon : ℚ) with hf_def
  by_cases hc : raw_minutes lon = 60
  · have h60 : (60 : ℚ) ≤ f * 60 + 1/2 := by
      have : (60 : ℤ) ≤ ⌊f * 60 + 1/2⌋ := by rw [← hmfl, hc]
      exact_mod_cast Int.le_floor.1 this
    simp only [zodiac_core, hc, if_pos rfl, reconstruct]
    rw [abs_le]
    push_cast
    constructor <;> nlinarith
  · have hup : f * 60 + 1/2 < (raw_minutes lon : ℚ) + 1 := by
      rw [hmfl]
      exact Int.lt_floor_add_one _
    have hlo : ((raw_minutes lon : ℤ) : ℚ) ≤ f * 60 + 1/2 := by
      rw [hmfl]
      exact Int.floor_le _
    simp only [zodiac_core, if_neg hc, reconstruct]
    rw [abs_le]
    constructor <;> nlinarith

/-- Witness for C4 at the concrete longitude 25°. -/
theorem reconstruct_within_half_minute_at_25 :
    |reconstruct (normalize_lon 25) - 25| ≤ 1/120 :=
  reconstruct_within_half_minute 25 (by norm_num) (by norm_num)

lemma atan2_pos_zero {y : ℝ} (hy : 0 < y) : atan2 y 0 = Real.pi / 2 := by
  unfold atan2
  apply Complex.arg_eq_pi_div_two_iff.2
  constructor <;> simp [hy]

lemma hour_circle_at_pi_div_two {ε : ℝ} (h : 0 < Real.cos ε) :
    hour_circle_ecliptic_longitude (Real.pi / 2) ε = 90 := by
  simp only [hour_circle_ecliptic_longitude, Real.sin_pi_div_two,
    Real.cos_pi_div_two, one_mul]
  rw [atan2_pos_zero h]
  have hde : Real.pi / 2 * (180 / Real.pi) = 90 := by
    field_simp
    ring
  rw [hde, if_neg (by norm_num)]

/-- C3 (amended): at right ascension π/2 the projector of compute-xiu.py
equals atan2(cos ε, 0) converted to degrees, and for every obliquity with
cos ε > 0 — in particular ε = 0 — that value is exactly 90°; it is constant,
not decreasing, in the obliquity. -/
theorem hour_circle_quarter_turn (ε : ℝ) (h : 0 < Real.cos ε) :
    hour_circle_ecliptic_longitude (Real.pi / 2) ε
      = atan2 (Real.cos ε) 0 * (180 / Real.pi) ∧
    hour_circle_ecliptic_longitude (Real.pi / 2) ε = 90 := by
  have h90 := hour_circle_at_pi_div_two h
  refine ⟨?_, h90⟩
  rw [h90, atan2_pos_zero h]
  field_simp
  ring

/-- Witness for C3 at obliquity 0. -/
theorem hour_circle_quarter_turn_at_zero :
    hour_circle_ecliptic_longitude (Real.pi / 2) 0
      = atan2 (Real.cos 0) 0 * (180 / Real.pi) ∧
    hour_circle_ecliptic_longitude (Real.pi / 2) 0 = 90 :=
  hour_circle_quarter_turn 0 (by rw [Real.cos_zero]; norm_num)

/-- C3 counterexample: at the nonzero obliquity π/3 the projected value at
right ascension π/2 is still exactly 90°, equal to its value at obliquity 0,
so it does not decrease for nonzero obliquity as the claim states. -/
theorem hour_circle_no_decrease_at_pi_div_three :
    Real.pi / 3 ≠ 0 ∧
    hour_circle_ecliptic_longitude (Real.pi / 2) (Real.pi / 3) = 90 ∧
    ¬ hour_circle_ecliptic_longitude (Real.pi / 2) (Real.pi / 3)
        < hour_circle_ecliptic_longitude (Real.pi / 2) 0 := by
  have h3 : (0 : ℝ) < Real.cos (Real.pi / 3) := by
    rw [Real.cos_pi_div_three]
    norm_num
  have h0 : (0 : ℝ) < Real.cos 0 := by
    rw [Real.cos_zero]
    norm_num
  have e3 := hour_circle_at_pi_div_two h3
  have e0 := hour_circle_at_pi_div_two h0
  refine ⟨?_, e3, ?_⟩
  · have := Real.pi_pos
    positivity
  · rw [e3, e0]
    exact lt_irrefl 90
